import Mathlib

/-!
Verification of the two-endpoint HTTP service (`src/api/main.py`).

The repository source contains only the two handlers `read_root` and
`read_item` together with their route registrations.  The router, the
typed-parameter coercion step and the error responses are provided by the
hosting framework, whose code is not part of the repository; those parts
are modelled from the specification (each such definition carries a
comment saying so).  The two handlers themselves are translated directly
from `src/api/main.py`.
-/

/-- A JSON scalar value as produced by the handlers: string, integer or
null.  Response bodies of this service contain only these. -/
inductive Value where
  | str (s : String)
  | int (n : Int)
  | null
deriving DecidableEq

/-- A response body: an ordered mapping from string keys to scalar values,
serialized in this order. -/
abbrev Body := List (String × Value)

/-- Handler `read_root` from `src/api/main.py`: returns the mapping
with the single pair Hello -> World. -/
def read_root : Body := [("Hello", Value.str "World")]

/-- Conversion of the optional query parameter to a JSON value:
a present string passes through verbatim, an absent one becomes null. -/
def optValue : Option String → Value
  | some s => Value.str s
  | none => Value.null

/-- Handler `read_item` from `src/api/main.py`: returns the mapping
with keys item_id and q, in that order. -/
def read_item (item_id : Int) (q : Option String) : Body :=
  [("item_id", Value.int item_id), ("q", optValue q)]

/-! ### Decimal segments

Modelled from the spec: the framework's coercion of the `item_id` path
segment, which "must parse as a base-10 integer (optionally signed)";
non-integer input is rejected before the handler runs.  The framework code
is not in the repository, so the parser below follows the spec's words. -/

/-- Numeric value of a decimal digit character. -/
def charVal (c : Char) : Nat := c.toNat - 48

/-- Value of a big-endian list of decimal digit characters. -/
def decDigits (cs : List Char) : Nat :=
  cs.foldl (fun a c => 10 * a + charVal c) 0

/-- Modelled from the spec: parse a path segment as an optionally signed
base-10 integer; any other content fails. -/
def parseIntSegment (s : String) : Option Int :=
  match s.data with
  | [] => none
  | c :: rest =>
    if c = '-' then
      if rest.all Char.isDigit = true ∧ rest ≠ [] then
        some (-(Int.ofNat (decDigits rest)))
      else none
    else if c = '+' then
      if rest.all Char.isDigit = true ∧ rest ≠ [] then
        some (Int.ofNat (decDigits rest))
      else none
    else if (c :: rest).all Char.isDigit = true then
      some (Int.ofNat (decDigits (c :: rest)))
    else none

/-- The character for a decimal digit. -/
def digitChar (d : Nat) : Char := Char.ofNat (48 + d)

/-- Canonical decimal rendering of a natural number. -/
def renderNat (n : Nat) : String :=
  if n = 0 then "0" else ⟨((Nat.digits 10 n).map digitChar).reverse⟩

/-- Canonical decimal rendering of an integer (minus sign when negative),
used to form the `/items/...` path segment for a given integer. -/
def renderInt (n : Int) : String :=
  if n < 0 then ⟨'-' :: (renderNat n.natAbs).data⟩ else renderNat n.natAbs

lemma charVal_digitChar {d : Nat} (h : d < 10) : charVal (digitChar d) = d := by
  interval_cases d <;> decide

lemma isDigit_digitChar {d : Nat} (h : d < 10) : (digitChar d).isDigit = true := by
  interval_cases d <;> decide

lemma not_sign_of_isDigit {c : Char} (h : c.isDigit = true) :
    c ≠ '-' ∧ c ≠ '+' := by
  constructor <;> rintro rfl <;> simp [Char.isDigit] at h

lemma decDigits_aux (L : List Nat) (hL : ∀ d ∈ L, d < 10) (a : Nat) :
    List.foldl (fun x c => 10 * x + charVal c) a ((L.map digitChar).reverse) =
      a * 10 ^ L.length + Nat.ofDigits 10 L := by
  induction L generalizing a with
  | nil => simp [Nat.ofDigits_nil]
  | cons d L ih =>
    have hd : d < 10 := hL d (List.mem_cons_self d L)
    have hL' : ∀ x ∈ L, x < 10 := fun x hx => hL x (List.mem_cons_of_mem d hx)
    simp only [List.map_cons, List.reverse_cons, List.foldl_append, List.foldl_cons,
      List.foldl_nil, ih hL' a, charVal_digitChar hd, Nat.ofDigits_cons,
      List.length_cons, Nat.cast_id]
    rw [pow_succ]
    ring

lemma decDigits_render (L : List Nat) (hL : ∀ d ∈ L, d < 10) :
    decDigits ((L.map digitChar).reverse) = Nat.ofDigits 10 L := by
  have := decDigits_aux L hL 0
  simpa [decDigits] using this

lemma all_isDigit_render (L : List Nat) (hL : ∀ d ∈ L, d < 10) :
    ((L.map digitChar).reverse).all Char.isDigit = true := by
  rw [List.all_eq_true]
  intro c hc
  rw [List.mem_reverse, List.mem_map] at hc
  obtain ⟨d, hd, rfl⟩ := hc
  exact isDigit_digitChar (hL d hd)

lemma parse_digit_list (cs : List Char) (h : cs.all Char.isDigit = true)
    (hne : cs ≠ []) : parseIntSegment ⟨cs⟩ = some (Int.ofNat (decDigits cs)) := by
  cases cs with
  | nil => exact absurd rfl hne
  | cons c rest =>
    have hc : c.isDigit = true := by
      have := List.all_eq_true.mp h c (List.mem_cons_self c rest)
      simpa using this
    obtain ⟨hneg, hpos⟩ := not_sign_of_isDigit hc
    show parseIntSegment (String.mk (c :: rest)) = _
    unfold parseIntSegment
    simp only [String.mk]
    rw [if_neg hneg, if_neg hpos, if_pos h]

lemma parse_renderNat (m : Nat) : parseIntSegment (renderNat m) = some (m : Int) := by
  by_cases hm : m = 0
  · subst hm
    simp only [renderNat, if_pos rfl]
    decide
  · have hdig : ∀ d ∈ Nat.digits 10 m, d < 10 := fun d hd =>
      Nat.digits_lt_base (by norm_num) hd
    have hne : ((Nat.digits 10 m).map digitChar).reverse ≠ [] := by
      simp [Nat.digits_ne_nil_iff_ne_zero.mpr hm]
    simp only [renderNat, if_neg hm]
    rw [parse_digit_list _ (all_isDigit_render _ hdig) hne,
      decDigits_render _ hdig, Nat.ofDigits_digits, Int.ofNat_eq_natCast]

lemma data_renderNat_all_digits (m : Nat) :
    (renderNat m).data.all Char.isDigit = true := by
  by_cases hm : m = 0
  · subst hm; decide
  · have hdig : ∀ d ∈ Nat.digits 10 m, d < 10 := fun d hd =>
      Nat.digits_lt_base (by norm_num) hd
    simp only [renderNat, if_neg hm]
    exact all_isDigit_render _ hdig

lemma data_renderNat_ne_nil (m : Nat) : (renderNat m).data ≠ [] := by
  by_cases hm : m = 0
  · subst hm; decide
  · simp [renderNat, if_neg hm, Nat.digits_ne_nil_iff_ne_zero.mpr hm]

lemma decDigits_data_renderNat (m : Nat) : decDigits (renderNat m).data = m := by
  have h1 : parseIntSegment (renderNat m) = some (Int.ofNat (decDigits (renderNat m).data)) :=
    parse_digit_list (renderNat m).data (data_renderNat_all_digits m)
      (data_renderNat_ne_nil m)
  have h2 := parse_renderNat m
  rw [h1, Int.ofNat_eq_natCast] at h2
  exact_mod_cast Option.some.inj h2

lemma parse_neg_cons (rest : List Char) :
    parseIntSegment ⟨'-' :: rest⟩ =
      if rest.all Char.isDigit = true ∧ rest ≠ [] then
        some (-(Int.ofNat (decDigits rest)))
      else none := rfl

lemma parse_renderInt (n : Int) : parseIntSegment (renderInt n) = some n := by
  by_cases hn : n < 0
  · simp only [renderInt, if_pos hn]
    rw [parse_neg_cons,
      if_pos ⟨data_renderNat_all_digits n.natAbs, data_renderNat_ne_nil n.natAbs⟩,
      decDigits_data_renderNat, Int.ofNat_eq_natCast]
    congr 1
    omega
  · simp only [renderInt, if_neg hn]
    rw [parse_renderNat]
    congr 1
    omega

/-! ### Router and service

Modelled from the spec: the route table, route matching, parameter
validation ordering and the error responses are framework behaviour whose
code is not in the repository; the definitions below follow the spec's
words ("route match (method + path template) -> parameter
extraction/coercion -> handler invocation", 422 on validation failure,
404 on unknown paths). -/

/-- A segment of a path template: a literal, or a typed integer
placeholder with its parameter name. -/
inductive Seg where
  | lit (s : String)
  | intParam (paramName : String)
deriving DecidableEq

/-- The identity of a registered handler. -/
inductive HandlerId where
  | root
  | item
deriving DecidableEq

/-- A route: HTTP method, path template and handler reference. -/
structure Route where
  method : String
  template : List Seg
  handler : HandlerId
deriving DecidableEq

/-- Modelled from the spec: the machine-readable description of a
parameter validation failure (field name, expected type, received
value). -/
structure ValidationError where
  field : String
  expected : String
  received : String
deriving DecidableEq

/-- An HTTP response: status code, the success body when the handler ran,
and the structured validation error on a 422. -/
structure Response where
  status : Nat
  body? : Option Body
  error? : Option ValidationError
deriving DecidableEq

/-- An inbound HTTP request: method, path split into segments, and the
optional query parameter q. -/
structure Request where
  method : String
  path : List String
  q : Option String
deriving DecidableEq

/-- A record of one handler invocation, with the validated arguments it
received. -/
inductive Call where
  | root
  | item (item_id : Int) (q : Option String)
deriving DecidableEq

/-- The route registered by the decorator on `read_root`. -/
def rootRoute : Route := ⟨"GET", [], HandlerId.root⟩

/-- The route registered by the decorator on `read_item`. -/
def itemsRoute : Route :=
  ⟨"GET", [Seg.lit "items", Seg.intParam "item_id"], HandlerId.item⟩

/-- The service's route table, in registration order. -/
def routeTable : List Route := [rootRoute, itemsRoute]

/-- Modelled from the spec: whether a path template matches a concrete
path, segment by segment; a placeholder matches any single segment. -/
def templateMatches : List Seg → List String → Bool
  | [], [] => true
  | Seg.lit s :: ts, p :: ps => s == p && templateMatches ts ps
  | Seg.intParam _ :: ts, _ :: ps => templateMatches ts ps
  | _, _ => false

/-- Modelled from the spec: whether a route matches a request's method and
path. -/
def matchesRoute (r : Route) (m : String) (p : List String) : Bool :=
  r.method == m && templateMatches r.template p

/-- Modelled from the spec: the full request pipeline — route match,
parameter coercion, handler invocation, response.  Returns the response
together with the list of handler invocations performed. -/
def dispatchWith (routes : List Route) (req : Request) : Response × List Call :=
  match routes.find? (fun r => matchesRoute r req.method req.path) with
  | none => (⟨404, none, none⟩, [])
  | some r =>
    match r.handler with
    | HandlerId.root => (⟨200, some read_root, none⟩, [Call.root])
    | HandlerId.item =>
      match req.path.getLast? with
      | none => (⟨422, none, some ⟨"item_id", "integer", ""⟩⟩, [])
      | some seg =>
        match parseIntSegment seg with
        | some n => (⟨200, some (read_item n req.q), none⟩, [Call.item n req.q])
        | none => (⟨422, none, some ⟨"item_id", "integer", seg⟩⟩, [])

/-- The whole state of the running service: just its route table (the
service keeps no other state). -/
structure ServiceState where
  routes : List Route
deriving DecidableEq

/-- The application object created by the module: the service with the two
registered routes. -/
def app : ServiceState := ⟨routeTable⟩

/-- Process one request against the current service state: dispatch it and
return the (unchanged) state, the response and the handler invocations. -/
def processRequest (st : ServiceState) (req : Request) :
    ServiceState × Response × List Call :=
  (st, dispatchWith st.routes req)

/-- Process a sequence of requests, threading the service state through,
and collect each request's response and invocations. -/
def processSeq (st : ServiceState) : List Request → List (Response × List Call)
  | [] => []
  | r :: rs =>
    (processRequest st r).2 :: processSeq (processRequest st r).1 rs

/-- The service state after processing a sequence of requests. -/
def stateAfter (st : ServiceState) : List Request → ServiceState
  | [] => st
  | r :: rs => stateAfter (processRequest st r).1 rs

/-- Whether every value in a body is a scalar: a string, an integer or
null. -/
def bodyScalars (b : Body) : Bool :=
  b.all fun p =>
    match p.2 with
    | Value.str _ => true
    | Value.int _ => true
    | Value.null => true

lemma dispatch_root (q : Option String) :
    dispatchWith routeTable ⟨"GET", [], q⟩ =
      (⟨200, some read_root, none⟩, [Call.root]) := rfl

lemma dispatch_items_parsed (seg : String) (q : Option String) (n : Int)
    (h : parseIntSegment seg = some n) :
    dispatchWith routeTable ⟨"GET", ["items", seg], q⟩ =
      (⟨200, some (read_item n q), none⟩, [Call.item n q]) := by
  have h1 : dispatchWith routeTable ⟨"GET", ["items", seg], q⟩ =
      match parseIntSegment seg with
      | some k => (⟨200, some (read_item k q), none⟩, [Call.item k q])
      | none => (⟨422, none, some ⟨"item_id", "integer", seg⟩⟩, []) := rfl
  rw [h1, h]

/-- Claim C1: for every integer n and string s, a GET request to
/items/(the decimal rendering of n) with query parameter q set to s
invokes the item handler with exactly those arguments and returns status
200 with body pairing item_id with n and q with s passed through
verbatim. -/
theorem items_query_echo (n : Int) (s : String) :
    dispatchWith routeTable ⟨"GET", ["items", renderInt n], some s⟩ =
      (⟨200, some [("item_id", Value.int n), ("q", Value.str s)], none⟩,
        [Call.item n (some s)]) := by
  rw [dispatch_items_parsed _ _ _ (parse_renderInt n)]
  rfl

/-- Claim C2: for every integer n, including negative values, a GET
request to /items/(the decimal rendering of n) with no q query parameter
returns status 200 with body pairing item_id with n and q with null. -/
theorem items_no_query_null (n : Int) :
    dispatchWith routeTable ⟨"GET", ["items", renderInt n], none⟩ =
      (⟨200, some [("item_id", Value.int n), ("q", Value.null)], none⟩,
        [Call.item n none]) := by
  rw [dispatch_items_parsed _ _ _ (parse_renderInt n)]
  rfl

/-- Claim C3: for every path segment that does not parse as a base-10
integer, a GET request to /items/(that segment) returns status 422 with a
structured validation error naming the item_id field, no success body is
produced, and the item handler is never invoked (the invocation list is
empty). -/
theorem items_validation_422 (seg : String) (q : Option String)
    (h : parseIntSegment seg = none) :
    dispatchWith routeTable ⟨"GET", ["items", seg], q⟩ =
      (⟨422, none, some ⟨"item_id", "integer", seg⟩⟩, []) := by
  have h1 : dispatchWith routeTable ⟨"GET", ["items", seg], q⟩ =
      match parseIntSegment seg with
      | some k => (⟨200, some (read_item k q), none⟩, [Call.item k q])
      | none => (⟨422, none, some ⟨"item_id", "integer", seg⟩⟩, []) := rfl
  rw [h1, h]

/-- Witness for C3 at the concrete segment 3.5, which does not parse as an
integer. -/
theorem items_validation_422_witness :
    parseIntSegment "3.5" = none ∧
      dispatchWith routeTable ⟨"GET", ["items", "3.5"], none⟩ =
        (⟨422, none, some ⟨"item_id", "integer", "3.5"⟩⟩, []) :=
  ⟨by decide, items_validation_422 "3.5" none (by decide)⟩

/-- Claim C4: every GET request to / returns status 200 with body exactly
the single pair Hello -> World, with no error and no handler-visible side
effects, and a run of any number of repeated calls yields that same
response every time. -/
theorem root_hello_world (q : Option String) (k : Nat) :
    dispatchWith routeTable ⟨"GET", [], q⟩ =
      (⟨200, some [("Hello", Value.str "World")], none⟩, [Call.root]) ∧
    processSeq app (List.replicate k ⟨"GET", [], q⟩) =
      List.replicate k ((⟨200, some [("Hello", Value.str "World")], none⟩ : Response),
        [Call.root]) := by
  constructor
  · rfl
  · induction k with
    | zero => rfl
    | succ k ih =>
      rw [List.replicate_succ, List.replicate_succ]
      exact congrArg (List.cons _) ih

/-- Claim C5: both handlers are deterministic and stateless: the response
and invocation record of every request in a sequence is a fixed function
of that request alone, independent of all earlier requests and of its
position in the sequence. -/
theorem handlers_deterministic_stateless (reqs : List Request) :
    processSeq app reqs = reqs.map (fun r => dispatchWith routeTable r) := by
  induction reqs with
  | nil => rfl
  | cons r rs ih =>
    show (processRequest app r).2 :: processSeq (processRequest app r).1 rs =
      dispatchWith routeTable r :: rs.map (fun r => dispatchWith routeTable r)
    exact congrArg (List.cons _) ih

/-- Claim C6: the item handler's body lists its keys in construction
order, item_id first then q, and every value in the bodies the service
produces is a string, an integer or null. -/
theorem item_body_key_order (n : Int) (q : Option String) :
    (read_item n q).map Prod.fst = ["item_id", "q"] ∧
    bodyScalars (read_item n q) = true ∧
    bodyScalars read_root = true := by
  refine ⟨rfl, ?_, rfl⟩
  cases q <;> rfl

/-- Claim C7: a request whose method and path match neither the GET /
route nor the GET /items/(item_id) route receives a 404 response with no
body, and no handler is invoked. -/
theorem unknown_route_404 (req : Request)
    (h1 : matchesRoute rootRoute req.method req.path = false)
    (h2 : matchesRoute itemsRoute req.method req.path = false) :
    dispatchWith routeTable req = (⟨404, none, none⟩, []) := by
  have hfind : routeTable.find? (fun r => matchesRoute r req.method req.path) = none := by
    unfold routeTable
    rw [List.find?_cons_of_neg, List.find?_cons_of_neg, List.find?_nil]
    · simp [h2]
    · simp [h1]
  unfold dispatchWith
  rw [hfind]

/-- Witness for C7 at the concrete unknown path /nope. -/
theorem unknown_route_404_witness :
    matchesRoute rootRoute "GET" ["nope"] = false ∧
    matchesRoute itemsRoute "GET" ["nope"] = false ∧
    dispatchWith routeTable ⟨"GET", ["nope"], none⟩ = (⟨404, none, none⟩, []) :=
  ⟨by decide, by decide,
    unknown_route_404 ⟨"GET", ["nope"], none⟩ (by decide) (by decide)⟩

/-- Claim C8: the route table registers exactly the two routes, each
(method, path template) pair occurs at most once, and the table is
unchanged by processing any sequence of requests. -/
theorem route_table_unique_constant :
    routeTable = [rootRoute, itemsRoute] ∧
    List.Pairwise
      (fun a b : Route => a.method ≠ b.method ∨ a.template ≠ b.template)
      routeTable ∧
    ∀ reqs : List Request, (stateAfter app reqs).routes = routeTable := by
  refine ⟨rfl, by decide, ?_⟩
  intro reqs
  induction reqs with
  | nil => rfl
  | cons r rs ih => exact ih

/-- Claim C9: the item handler is total on validated inputs: for every
integer of arbitrary magnitude and every optional query string, dispatch
of the corresponding request succeeds with status 200 and a body that is
the single two-pair mapping the handler constructs. -/
theorem item_handler_total (n : Int) (q : Option String) :
    (dispatchWith routeTable ⟨"GET", ["items", renderInt n], q⟩).1.status = 200 ∧
    (dispatchWith routeTable ⟨"GET", ["items", renderInt n], q⟩).1.body? =
      some (read_item n q) ∧
    (read_item n q).length = 2 := by
  rw [dispatch_items_parsed _ _ _ (parse_renderInt n)]
  exact ⟨rfl, rfl, rfl⟩

/-- Claim C10: handling any request leaves the service state unchanged:
the state returned by processing equals the state before it, and in
particular the route table is identical. -/
theorem request_preserves_state (st : ServiceState) (req : Request) :
    (processRequest st req).1 = st ∧
    (processRequest st req).1.routes = st.routes :=
  ⟨rfl, rfl⟩
